import Mathlib

/-
Shallow embedding of the genome_minimizer repository.

Source files:
  src/models/VAE_models/VAE_model_enhanced.py  (class VAE_enhanced)
  src/utilities/directories.py                 (path constants module)

Conventions of the embedding:
- PyTorch tensors of shape (rows, cols) are modelled as a record carrying the
  two dimensions and a total data function; entries outside the shape are
  irrelevant junk.  Real-valued floats are idealized as real numbers.
- Each nn layer carries its parameters explicitly.  Stateful behaviour
  (batch-norm running statistics, which the layer itself updates during a
  training-mode forward call) is modelled by explicit state passing: applying
  a layer returns the output together with the possibly-updated layer.
- Fallible library behaviour (shape mismatches, PyTorch BatchNorm1d refusing
  a training batch with one value per channel) is modelled with Except.
- Randomness (torch.randn_like in reparameterization, the Bernoulli dropout
  masks) is modelled by injecting the drawn noise as an explicit argument;
  a fresh draw corresponds to a fresh argument value.
-/

set_option autoImplicit false

noncomputable section

/-- Ambient training/inference mode of an nn.Module (module.train()/.eval()). -/
inductive Mode
  | train
  | eval
deriving DecidableEq

/-- Errors surfaced synchronously by the underlying tensor engine:
a trailing-dimension mismatch at a layer, or PyTorch BatchNorm1d's
ValueError "Expected more than 1 value per channel when training". -/
inductive Err
  | shapeMismatch
  | batchTooSmall
deriving DecidableEq

/-- A 2-D tensor of shape (rows, cols) with real entries.  The data function
is total; only indices below the bounds are meaningful. -/
@[ext]
structure Tensor where
  rows : ℕ
  cols : ℕ
  data : ℕ → ℕ → ℝ

/-- The constant tensor of a given shape. -/
def Tensor.const (r c : ℕ) (v : ℝ) : Tensor :=
  ⟨r, c, fun _ _ => v⟩

/-- nn.Linear(inFeatures, outFeatures): weight of shape (outFeatures, inFeatures)
and bias of shape (outFeatures). -/
@[ext]
structure NNLinear where
  inFeatures : ℕ
  outFeatures : ℕ
  weight : ℕ → ℕ → ℝ
  bias : ℕ → ℝ

/-- y = x Wᵀ + b, defined when the trailing dimension of x matches inFeatures. -/
def NNLinear.apply (l : NNLinear) (x : Tensor) : Except Err Tensor :=
  if x.cols = l.inFeatures then
    .ok ⟨x.rows, l.outFeatures,
      fun b j => (∑ i ∈ Finset.range l.inFeatures, l.weight j i * x.data b i) + l.bias j⟩
  else
    .error .shapeMismatch

/-- An nn.Linear as produced by VAE_enhanced._initialize_weights: the weight
entries are the Xavier-uniform draw w and nn.init.constant_ sets the bias to 0. -/
def NNLinear.construct (inF outF : ℕ) (w : ℕ → ℕ → ℝ) : NNLinear :=
  ⟨inF, outF, w, fun _ => 0⟩

/-- Per-feature batch mean used by BatchNorm1d in training mode. -/
def batchMean (x : Tensor) (j : ℕ) : ℝ :=
  (∑ b ∈ Finset.range x.rows, x.data b j) / (x.rows : ℝ)

/-- Per-feature biased batch variance used by BatchNorm1d to normalize in
training mode. -/
def batchVar (x : Tensor) (j : ℕ) : ℝ :=
  (∑ b ∈ Finset.range x.rows, (x.data b j - batchMean x j) ^ 2) / (x.rows : ℝ)

/-- Per-feature unbiased batch variance used by BatchNorm1d to update the
running variance in training mode. -/
def batchVarUnbiased (x : Tensor) (j : ℕ) : ℝ :=
  (∑ b ∈ Finset.range x.rows, (x.data b j - batchMean x j) ^ 2) / ((x.rows : ℝ) - 1)

/-- nn.BatchNorm1d(numFeatures): learnable scale gamma and shift beta, plus the
running-statistics buffers, with PyTorch's momentum and eps hyperparameters. -/
@[ext]
structure NNBatchNorm where
  numFeatures : ℕ
  gamma : ℕ → ℝ
  beta : ℕ → ℝ
  runningMean : ℕ → ℝ
  runningVar : ℕ → ℝ
  momentum : ℝ
  eps : ℝ

/-- BatchNorm1d semantics.  Training mode normalizes with the per-batch
statistics, requires more than one value per channel, and updates the running
statistics in place (modelled by returning the updated layer).  Inference mode
normalizes with the running statistics and leaves the layer unchanged. -/
def NNBatchNorm.apply (bn : NNBatchNorm) (mode : Mode) (x : Tensor) :
    Except Err (Tensor × NNBatchNorm) :=
  if x.cols = bn.numFeatures then
    match mode with
    | .train =>
      if 1 < x.rows then
        .ok (⟨x.rows, x.cols,
              fun b j => bn.gamma j *
                ((x.data b j - batchMean x j) / Real.sqrt (batchVar x j + bn.eps)) + bn.beta j⟩,
             { bn with
               runningMean := fun j =>
                 (1 - bn.momentum) * bn.runningMean j + bn.momentum * batchMean x j,
               runningVar := fun j =>
                 (1 - bn.momentum) * bn.runningVar j + bn.momentum * batchVarUnbiased x j })
      else
        .error .batchTooSmall
    | .eval =>
      .ok (⟨x.rows, x.cols,
            fun b j => bn.gamma j *
              ((x.data b j - bn.runningMean j) / Real.sqrt (bn.runningVar j + bn.eps)) + bn.beta j⟩,
           bn)
  else
    .error .shapeMismatch

/-- nn.BatchNorm1d at its PyTorch defaults: gamma = 1, beta = 0,
running mean 0, running variance 1, momentum 0.1, eps 1e-5. -/
def NNBatchNorm.default (n : ℕ) : NNBatchNorm :=
  ⟨n, fun _ => 1, fun _ => 0, fun _ => 0, fun _ => 1, 0.1, 1e-5⟩

/-- Elementwise nn.ReLU. -/
def reluT (x : Tensor) : Tensor :=
  ⟨x.rows, x.cols, fun b j => max 0 (x.data b j)⟩

/-- The logistic sigmoid on a scalar. -/
def sigmoid (t : ℝ) : ℝ :=
  1 / (1 + Real.exp (-t))

/-- Elementwise nn.Sigmoid. -/
def sigmoidT (x : Tensor) : Tensor :=
  ⟨x.rows, x.cols, fun b j => sigmoid (x.data b j)⟩

/-- nn.Dropout(p).  Training mode multiplies by the injected Bernoulli mask and
rescales by 1/(1-p); inference mode is the identity (shape is preserved in
both modes). -/
def dropoutT (p : ℝ) (mode : Mode) (mask : ℕ → ℕ → ℝ) (x : Tensor) : Tensor :=
  ⟨x.rows, x.cols, fun b j =>
    match mode with
    | .train => x.data b j * mask b j / (1 - p)
    | .eval => x.data b j⟩

/-- The VAE_enhanced module: the layers of self.encoder (four
Linear/BatchNorm1d/ReLU blocks), self.mean_layer, self.logvar_layer, and the
layers of self.decoder (four Linear/BatchNorm1d/ReLU/Dropout(0.1) blocks
followed by Linear and Sigmoid), exactly as assembled in __init__. -/
@[ext]
structure VAE_enhanced where
  input_dim : ℕ
  hidden_dim : ℕ
  latent_dim : ℕ
  encLin1 : NNLinear
  encBn1 : NNBatchNorm
  encLin2 : NNLinear
  encBn2 : NNBatchNorm
  encLin3 : NNLinear
  encBn3 : NNBatchNorm
  encLin4 : NNLinear
  encBn4 : NNBatchNorm
  mean_layer : NNLinear
  logvar_layer : NNLinear
  decLin1 : NNLinear
  decBn1 : NNBatchNorm
  decLin2 : NNLinear
  decBn2 : NNBatchNorm
  decLin3 : NNLinear
  decBn3 : NNBatchNorm
  decLin4 : NNLinear
  decBn4 : NNBatchNorm
  decLin5 : NNLinear

/-- self.encoder(x): the nn.Sequential of the four encoder blocks, threading
the batch-norm state updates. -/
def VAE_enhanced.encoderSeq (m : VAE_enhanced) (mode : Mode) (x : Tensor) :
    Except Err (Tensor × VAE_enhanced) :=
  (m.encLin1.apply x).bind fun h1 =>
  (m.encBn1.apply mode h1).bind fun p1 =>
  (m.encLin2.apply (reluT p1.1)).bind fun h2 =>
  (m.encBn2.apply mode h2).bind fun p2 =>
  (m.encLin3.apply (reluT p2.1)).bind fun h3 =>
  (m.encBn3.apply mode h3).bind fun p3 =>
  (m.encLin4.apply (reluT p3.1)).bind fun h4 =>
  (m.encBn4.apply mode h4).bind fun p4 =>
  .ok (reluT p4.1,
       { m with encBn1 := p1.2, encBn2 := p2.2, encBn3 := p3.2, encBn4 := p4.2 })

/-- encode(x): h = self.encoder(x); mean, logvar = self.mean_layer(h),
self.logvar_layer(h); return mean, logvar (plus the updated module state). -/
def VAE_enhanced.encode (m : VAE_enhanced) (mode : Mode) (x : Tensor) :
    Except Err (Tensor × Tensor × VAE_enhanced) :=
  (m.encoderSeq mode x).bind fun ph =>
  (ph.2.mean_layer.apply ph.1).bind fun mean =>
  (ph.2.logvar_layer.apply ph.1).bind fun logvar =>
  .ok (mean, logvar, ph.2)

/-- reparameterization(mean, logvar): std = torch.exp(0.5 * logvar);
epsilon = torch.randn_like(std) (injected here as the argument eps, whose
shape is by construction that of std); z = mean + std * epsilon.  The
elementwise addition requires mean and logvar to share a shape. -/
def reparameterization (mean logvar : Tensor) (eps : ℕ → ℕ → ℝ) : Except Err Tensor :=
  if mean.rows = logvar.rows ∧ mean.cols = logvar.cols then
    .ok ⟨mean.rows, mean.cols,
      fun b j => mean.data b j + Real.exp (0.5 * logvar.data b j) * eps b j⟩
  else
    .error .shapeMismatch

/-- decode(z): the nn.Sequential of the decoder, threading the batch-norm
state updates; dmask i is the Bernoulli mask drawn by the i-th Dropout layer. -/
def VAE_enhanced.decode (m : VAE_enhanced) (mode : Mode) (z : Tensor)
    (dmask : ℕ → ℕ → ℕ → ℝ) : Except Err (Tensor × VAE_enhanced) :=
  (m.decLin1.apply z).bind fun h1 =>
  (m.decBn1.apply mode h1).bind fun p1 =>
  (m.decLin2.apply (dropoutT 0.1 mode (dmask 0) (reluT p1.1))).bind fun h2 =>
  (m.decBn2.apply mode h2).bind fun p2 =>
  (m.decLin3.apply (dropoutT 0.1 mode (dmask 1) (reluT p2.1))).bind fun h3 =>
  (m.decBn3.apply mode h3).bind fun p3 =>
  (m.decLin4.apply (dropoutT 0.1 mode (dmask 2) (reluT p3.1))).bind fun h4 =>
  (m.decBn4.apply mode h4).bind fun p4 =>
  (m.decLin5.apply (dropoutT 0.1 mode (dmask 3) (reluT p4.1))).bind fun h5 =>
  .ok (sigmoidT h5,
       { m with decBn1 := p1.2, decBn2 := p2.2, decBn3 := p3.2, decBn4 := p4.2 })

/-- forward(x): mean, logvar = self.encode(x); z = self.reparameterization(mean,
logvar); x_hat = self.decode(z); return x_hat, mean, logvar (plus the updated
module state carried by the state-passing translation). -/
def VAE_enhanced.forward (m : VAE_enhanced) (mode : Mode) (x : Tensor)
    (eps : ℕ → ℕ → ℝ) (dmask : ℕ → ℕ → ℕ → ℝ) :
    Except Err (Tensor × Tensor × Tensor × VAE_enhanced) :=
  (m.encode mode x).bind fun pe =>
  (reparameterization pe.1 pe.2.1 eps).bind fun z =>
  (pe.2.2.decode mode z dmask).bind fun pd =>
  .ok (pd.1, pe.1, pe.2.1, pd.2)

/-- VAE_enhanced(input_dim, hidden_dim, latent_dim) immediately followed by
self._initialize_weights(): every nn.Linear gets its Xavier-uniform weight
draw (w k is the draw for the k-th linear layer, in declaration order) and a
zero bias; every nn.BatchNorm1d keeps its default parameters, untouched by
_initialize_weights. -/
def VAE_enhanced.construct (input_dim hidden_dim latent_dim : ℕ)
    (w : ℕ → ℕ → ℕ → ℝ) : VAE_enhanced where
  input_dim := input_dim
  hidden_dim := hidden_dim
  latent_dim := latent_dim
  encLin1 := NNLinear.construct input_dim hidden_dim (w 0)
  encBn1 := NNBatchNorm.default hidden_dim
  encLin2 := NNLinear.construct hidden_dim hidden_dim (w 1)
  encBn2 := NNBatchNorm.default hidden_dim
  encLin3 := NNLinear.construct hidden_dim hidden_dim (w 2)
  encBn3 := NNBatchNorm.default hidden_dim
  encLin4 := NNLinear.construct hidden_dim hidden_dim (w 3)
  encBn4 := NNBatchNorm.default hidden_dim
  mean_layer := NNLinear.construct hidden_dim latent_dim (w 4)
  logvar_layer := NNLinear.construct hidden_dim latent_dim (w 5)
  decLin1 := NNLinear.construct latent_dim hidden_dim (w 6)
  decBn1 := NNBatchNorm.default hidden_dim
  decLin2 := NNLinear.construct hidden_dim hidden_dim (w 7)
  decBn2 := NNBatchNorm.default hidden_dim
  decLin3 := NNLinear.construct hidden_dim hidden_dim (w 8)
  decBn3 := NNBatchNorm.default hidden_dim
  decLin4 := NNLinear.construct hidden_dim hidden_dim (w 9)
  decBn4 := NNBatchNorm.default hidden_dim
  decLin5 := NNLinear.construct hidden_dim input_dim (w 10)

/-- The Xavier/Glorot uniform bound sqrt(6 / (fan_in + fan_out)). -/
def xavierLimit (fanIn fanOut : ℕ) : ℝ :=
  Real.sqrt (6 / ((fanIn : ℝ) + (fanOut : ℝ)))

/-- fan_in of the k-th linear layer of VAE_enhanced, in declaration order. -/
def layerFanIn (input_dim hidden_dim latent_dim : ℕ) : ℕ → ℕ
  | 0 => input_dim
  | 6 => latent_dim
  | _ => hidden_dim

/-- fan_out of the k-th linear layer of VAE_enhanced, in declaration order. -/
def layerFanOut (input_dim hidden_dim latent_dim : ℕ) : ℕ → ℕ
  | 4 => latent_dim
  | 5 => latent_dim
  | 10 => input_dim
  | _ => hidden_dim

/-- The defining property of the Xavier-uniform draw: every sampled weight
entry of every layer lies within the Xavier bound for that layer's fans. -/
def xavierDraws (input_dim hidden_dim latent_dim : ℕ) (w : ℕ → ℕ → ℕ → ℝ) : Prop :=
  ∀ k j i, |w k j i| ≤ xavierLimit (layerFanIn input_dim hidden_dim latent_dim k)
                                   (layerFanOut input_dim hidden_dim latent_dim k)

/-- State of a freshly constructed model, as the spec describes it: every
linear bias is zero, every linear weight entry is within the Xavier bound of
its layer, and every batch-norm scale/shift pair is at its default (1, 0). -/
def xavierInitOK (input_dim hidden_dim latent_dim : ℕ) (m : VAE_enhanced) : Prop :=
  (∀ j, m.encLin1.bias j = 0 ∧ m.encLin2.bias j = 0 ∧ m.encLin3.bias j = 0 ∧
        m.encLin4.bias j = 0 ∧ m.mean_layer.bias j = 0 ∧ m.logvar_layer.bias j = 0 ∧
        m.decLin1.bias j = 0 ∧ m.decLin2.bias j = 0 ∧ m.decLin3.bias j = 0 ∧
        m.decLin4.bias j = 0 ∧ m.decLin5.bias j = 0) ∧
  (∀ j i, |m.encLin1.weight j i| ≤ xavierLimit input_dim hidden_dim ∧
          |m.encLin2.weight j i| ≤ xavierLimit hidden_dim hidden_dim ∧
          |m.encLin3.weight j i| ≤ xavierLimit hidden_dim hidden_dim ∧
          |m.encLin4.weight j i| ≤ xavierLimit hidden_dim hidden_dim ∧
          |m.mean_layer.weight j i| ≤ xavierLimit hidden_dim latent_dim ∧
          |m.logvar_layer.weight j i| ≤ xavierLimit hidden_dim latent_dim ∧
          |m.decLin1.weight j i| ≤ xavierLimit latent_dim hidden_dim ∧
          |m.decLin2.weight j i| ≤ xavierLimit hidden_dim hidden_dim ∧
          |m.decLin3.weight j i| ≤ xavierLimit hidden_dim hidden_dim ∧
          |m.decLin4.weight j i| ≤ xavierLimit hidden_dim hidden_dim ∧
          |m.decLin5.weight j i| ≤ xavierLimit hidden_dim input_dim) ∧
  (∀ j, m.encBn1.gamma j = 1 ∧ m.encBn1.beta j = 0 ∧
        m.encBn2.gamma j = 1 ∧ m.encBn2.beta j = 0 ∧
        m.encBn3.gamma j = 1 ∧ m.encBn3.beta j = 0 ∧
        m.encBn4.gamma j = 1 ∧ m.encBn4.beta j = 0 ∧
        m.decBn1.gamma j = 1 ∧ m.decBn1.beta j = 0 ∧
        m.decBn2.gamma j = 1 ∧ m.decBn2.beta j = 0 ∧
        m.decBn3.gamma j = 1 ∧ m.decBn3.beta j = 0 ∧
        m.decBn4.gamma j = 1 ∧ m.decBn4.beta j = 0)

/-- The learnable scale/shift parameters of two batch-norm layers coincide. -/
def bnParamsEq (a b : NNBatchNorm) : Prop :=
  a.gamma = b.gamma ∧ a.beta = b.beta

/-- All weight matrices, bias vectors, and batch-norm scale/shift parameters
of two module states coincide (the running-statistics buffers may differ). -/
def paramsPreserved (m m' : VAE_enhanced) : Prop :=
  m'.encLin1 = m.encLin1 ∧ m'.encLin2 = m.encLin2 ∧ m'.encLin3 = m.encLin3 ∧
  m'.encLin4 = m.encLin4 ∧ m'.mean_layer = m.mean_layer ∧
  m'.logvar_layer = m.logvar_layer ∧ m'.decLin1 = m.decLin1 ∧
  m'.decLin2 = m.decLin2 ∧ m'.decLin3 = m.decLin3 ∧ m'.decLin4 = m.decLin4 ∧
  m'.decLin5 = m.decLin5 ∧
  bnParamsEq m'.encBn1 m.encBn1 ∧ bnParamsEq m'.encBn2 m.encBn2 ∧
  bnParamsEq m'.encBn3 m.encBn3 ∧ bnParamsEq m'.encBn4 m.encBn4 ∧
  bnParamsEq m'.decBn1 m.decBn1 ∧ bnParamsEq m'.decBn2 m.decBn2 ∧
  bnParamsEq m'.decBn3 m.decBn3 ∧ bnParamsEq m'.decBn4 m.decBn4

/-- The (rows, cols) shape of a tensor. -/
def shapeOf (t : Tensor) : ℕ × ℕ :=
  (t.rows, t.cols)

/-- The shapes of the (x_hat, mean, logvar) triple of a successful forward
call, and none for a failed one. -/
def forwardShapes (r : Except Err (Tensor × Tensor × Tensor × VAE_enhanced)) :
    Option ((ℕ × ℕ) × (ℕ × ℕ) × (ℕ × ℕ)) :=
  r.toOption.map fun q => (shapeOf q.1, shapeOf q.2.1, shapeOf q.2.2.1)

/-- The tensor the spec's words prescribe for the reparameterization sampler:
z = mean + exp(0.5 * logvar) * eps, elementwise, of mean's shape. -/
def reparamSpec (mean logvar : Tensor) (eps : ℕ → ℕ → ℝ) : Tensor :=
  ⟨mean.rows, mean.cols,
   fun b j => mean.data b j + Real.exp (0.5 * logvar.data b j) * eps b j⟩

/- Concrete instances used by witnesses and counterexamples. -/

/-- The model constructed with dims (1, 1, 1) and the all-zero weight draw. -/
def zeroModel : VAE_enhanced :=
  VAE_enhanced.construct 1 1 1 (fun _ _ _ => 0)

/-- The model constructed with dims (1, 1, 1) and the all-one weight draw. -/
def oneModel : VAE_enhanced :=
  VAE_enhanced.construct 1 1 1 (fun _ _ _ => 1)

/-- A batch of two zero feature vectors of width 1. -/
def x0 : Tensor :=
  Tensor.const 2 1 0

/-- The all-zero noise draw. -/
def eps0 : ℕ → ℕ → ℝ :=
  fun _ _ => 0

/-- The all-one noise draw. -/
def eps1 : ℕ → ℕ → ℝ :=
  fun _ _ => 1

/-- The all-zero dropout masks. -/
def dm0 : ℕ → ℕ → ℕ → ℝ :=
  fun _ _ _ => 0

/-- A default-parameter BatchNorm1d(1) after one training-mode batch whose
entries all equal c: the output statistics move the running mean to c/10 and
the running variance to 9/10. -/
def bnAfterTrain (c : ℝ) : NNBatchNorm :=
  ⟨1, fun _ => 1, fun _ => 0, fun _ => c / 10, fun _ => 9 / 10, 0.1, 1e-5⟩

/-- zeroModel after a training-mode encode on x0: the four encoder batch-norm
layers saw an all-zero batch and updated their running statistics. -/
def zeroModelEnc : VAE_enhanced :=
  { zeroModel with
    encBn1 := bnAfterTrain 0, encBn2 := bnAfterTrain 0,
    encBn3 := bnAfterTrain 0, encBn4 := bnAfterTrain 0 }

/-- zeroModel after one training-mode forward call on x0: every batch-norm
layer saw an all-zero batch and updated its running statistics accordingly. -/
def zeroModelAfter : VAE_enhanced :=
  { zeroModel with
    encBn1 := bnAfterTrain 0, encBn2 := bnAfterTrain 0,
    encBn3 := bnAfterTrain 0, encBn4 := bnAfterTrain 0,
    decBn1 := bnAfterTrain 0, decBn2 := bnAfterTrain 0,
    decBn3 := bnAfterTrain 0, decBn4 := bnAfterTrain 0 }

/-- oneModel after a training-mode encode on an all-one batch of two rows:
the first encoder batch-norm saw the all-one batch, the later ones all-zero
batches. -/
def oneModelEnc : VAE_enhanced :=
  { oneModel with
    encBn1 := bnAfterTrain 1, encBn2 := bnAfterTrain 0,
    encBn3 := bnAfterTrain 0, encBn4 := bnAfterTrain 0 }

/-- The result tuple of the inference-mode forward call of zeroModel on x0
with zero noise and zero dropout masks. -/
def zeroFwdResult : Tensor × Tensor × Tensor × VAE_enhanced :=
  (Tensor.const 2 1 (1 / 2), Tensor.const 2 1 0, Tensor.const 2 1 0, zeroModel)

end

/- ------------------------------------------------------------------ -/
/- src/utilities/directories.py                                        -/
/- ------------------------------------------------------------------ -/

/-- A Python runtime value occurring in directories.py: the module manipulates
only strings (path literals and their concatenations). -/
inductive PyVal
  | str (s : String)
deriving DecidableEq

/-- A Python exception relevant to evaluating directories.py. -/
inductive PyError
  | nameError (n : String)
  | attributeError
  | typeError
deriving DecidableEq

/-- The expression grammar of the right-hand sides in directories.py: string
literals, names, attribute access, one- and two-argument calls, and +. -/
inductive PyExpr
  | strLit (s : String)
  | name (n : String)
  | attr (e : PyExpr) (f : String)
  | call1 (f a : PyExpr)
  | call2 (f a b : PyExpr)
  | add (a b : PyExpr)
deriving DecidableEq

/-- Lookup of a name in an association-list environment. -/
def lookupEnv : List (String × PyVal) → String → Option PyVal
  | [], _ => none
  | (k, v) :: rest, n => if k = n then some v else lookupEnv rest n

/-- Python expression evaluation over the value domain of directories.py.
An unbound name raises NameError; attribute access on a string raises
AttributeError (no attribute used in the module exists on str); calling a
non-callable raises TypeError; + concatenates strings.  Evaluation order
follows Python: the callee of a call is evaluated before its arguments. -/
def evalExpr (env : List (String × PyVal)) : PyExpr → Except PyError PyVal
  | .strLit s => .ok (.str s)
  | .name n =>
    match lookupEnv env n with
    | some v => .ok v
    | none => .error (.nameError n)
  | .attr e _ => (evalExpr env e).bind fun _ => .error .attributeError
  | .call1 f a =>
    (evalExpr env f).bind fun _ => (evalExpr env a).bind fun _ => .error .typeError
  | .call2 f a b =>
    (evalExpr env f).bind fun _ => (evalExpr env a).bind fun _ =>
      (evalExpr env b).bind fun _ => .error .typeError
  | .add a b =>
    (evalExpr env a).bind fun va => (evalExpr env b).bind fun vb =>
      match va, vb with
      | .str sa, .str sb => .ok (.str (sa ++ sb))

/-- Executing a module body: assignments run in order, each binding its name,
and the first uncaught exception aborts the module, leaving the bindings made
so far. -/
def runStmts (env : List (String × PyVal)) :
    List (String × PyExpr) → List (String × PyVal) × Option PyError
  | [] => (env, none)
  | (n, e) :: rest =>
    match evalExpr env e with
    | .ok v => runStmts (env ++ [(n, v)]) rest
    | .error err => (env, some err)

/-- The module globals before the first statement of directories.py runs:
the interpreter provides __file__, and nothing binds the name os, since the
file contains no import statement. -/
def directoriesInitEnv : List (String × PyVal) :=
  [("__file__", .str "src/utilities/directories.py")]

/-- The statements of directories.py, in source order. -/
def directoriesStmts : List (String × PyExpr) :=
  [("PROJECT_ROOT",
    .call1 (.attr (.attr (.name "os") "path") "abspath")
      (.call2 (.attr (.attr (.name "os") "path") "join")
        (.call1 (.attr (.attr (.name "os") "path") "dirname") (.name "__file__"))
        (.strLit ".."))),
   ("TEN_K_DATASET", .strLit "data/F4_complete_presence_absence.csv"),
   ("TEN_K_DATASET_PHYLOGROUPS", .strLit "data/accessionID_phylogroup_BD.csv"),
   ("TEN_K_DATASET_METADATA", .strLit "data/metadata_BD.csv"),
   ("PAPER_ESSENTIAL_GENES", .strLit "data/essential_genes.csv"),
   ("ESSENTIAL_GENES_POSITIONS", .strLit "data/essential_gene_positions.pkl"),
   ("MINIMIZED_GENOME", .strLit "data/minimized_genome.fasta"),
   ("WILD_TYPE_SEQUENCE", .strLit "sequence.gb"),
   ("DATA_DIR", .add (.name "PROJECT_ROOT") (.strLit "/data/"))]

/-- The result of importing directories.py: the final environment together
with the exception that aborted the module, if any. -/
def evalDirectories : List (String × PyVal) × Option PyError :=
  runStmts directoriesInitEnv directoriesStmts

/-- Lookup of a statement's right-hand side in a module body. -/
def lookupStmt : List (String × PyExpr) → String → Option PyExpr
  | [], _ => none
  | (k, e) :: rest, n => if k = n then some e else lookupStmt rest n

/- ------------------------------------------------------------------ -/
/- Theorems                                                            -/
/- ------------------------------------------------------------------ -/

theorem ok_bind {ε α β : Type} (a : α) (f : α → Except ε β) :
    (Except.ok a : Except ε α).bind f = f a := rfl

theorem error_bind {ε α β : Type} (e : ε) (f : α → Except ε β) :
    (Except.error e : Except ε α).bind f = Except.error e := rfl

theorem exceptBind_eq_ok {ε α β : Type} {e : Except ε α} {f : α → Except ε β} {b : β} :
    e.bind f = Except.ok b ↔ ∃ a, e = Except.ok a ∧ f a = Except.ok b := by
  cases e <;> simp [Except.bind]

/-- C10: evaluating the path-constants module fails with a name-resolution
error on the name os at its very first statement, before any constant is
bound; the final environment is the initial one and none of the symbolic path
names can be looked up by a consumer. -/
theorem C10_directories_name_error :
    evalDirectories = (directoriesInitEnv, some (PyError.nameError "os")) ∧
    lookupEnv evalDirectories.1 "PROJECT_ROOT" = none ∧
    lookupEnv evalDirectories.1 "TEN_K_DATASET" = none ∧
    lookupEnv evalDirectories.1 "TEN_K_DATASET_PHYLOGROUPS" = none ∧
    lookupEnv evalDirectories.1 "TEN_K_DATASET_METADATA" = none ∧
    lookupEnv evalDirectories.1 "PAPER_ESSENTIAL_GENES" = none ∧
    lookupEnv evalDirectories.1 "ESSENTIAL_GENES_POSITIONS" = none ∧
    lookupEnv evalDirectories.1 "MINIMIZED_GENOME" = none ∧
    lookupEnv evalDirectories.1 "WILD_TYPE_SEQUENCE" = none ∧
    lookupEnv evalDirectories.1 "DATA_DIR" = none := by
  decide

/-- C8 counterexample: contrary to the claim that the module exposes a fixed
mapping from symbolic name to file path, evaluating the module binds no
dataset symbol at all (it aborts with NameError on the first statement), so
the mapping is never exposed. -/
theorem C8_counterexample :
    lookupEnv evalDirectories.1 "TEN_K_DATASET" = none ∧
    evalDirectories.2 ≠ none := by
  decide

/-- C8 (amended): the module's statement list maps each dataset symbol to a
fixed relative path string literal (not an expression rooted at PROJECT_ROOT)
and DATA_DIR to PROJECT_ROOT + "/data/", but evaluating the module as written
raises NameError on the unimported name os at the first statement, so the
mapping is never exposed to consumers. -/
theorem C8_directories_mapping :
    lookupStmt directoriesStmts "TEN_K_DATASET" =
      some (.strLit "data/F4_complete_presence_absence.csv") ∧
    lookupStmt directoriesStmts "TEN_K_DATASET_PHYLOGROUPS" =
      some (.strLit "data/accessionID_phylogroup_BD.csv") ∧
    lookupStmt directoriesStmts "TEN_K_DATASET_METADATA" =
      some (.strLit "data/metadata_BD.csv") ∧
    lookupStmt directoriesStmts "PAPER_ESSENTIAL_GENES" =
      some (.strLit "data/essential_genes.csv") ∧
    lookupStmt directoriesStmts "ESSENTIAL_GENES_POSITIONS" =
      some (.strLit "data/essential_gene_positions.pkl") ∧
    lookupStmt directoriesStmts "MINIMIZED_GENOME" =
      some (.strLit "data/minimized_genome.fasta") ∧
    lookupStmt directoriesStmts "WILD_TYPE_SEQUENCE" =
      some (.strLit "sequence.gb") ∧
    lookupStmt directoriesStmts "DATA_DIR" =
      some (.add (.name "PROJECT_ROOT") (.strLit "/data/")) ∧
    evalDirectories.2 = some (PyError.nameError "os") := by
  decide

/- Step lemmas evaluating single layers on small constant batches. -/

theorem lin00_apply (r : ℕ) (c : ℝ) :
    (NNLinear.mk 1 1 (fun _ _ => 0) (fun _ => 0)).apply (Tensor.const r 1 c) =
      Except.ok (Tensor.const r 1 0) := by
  simp [NNLinear.apply, Tensor.const]

theorem lin11_apply (r : ℕ) (c : ℝ) :
    (NNLinear.mk 1 1 (fun _ _ => 1) (fun _ => 0)).apply (Tensor.const r 1 c) =
      Except.ok (Tensor.const r 1 c) := by
  simp [NNLinear.apply, Tensor.const]

theorem const_rows (r k : ℕ) (v : ℝ) : (Tensor.const r k v).rows = r := rfl

theorem const_cols (r k : ℕ) (v : ℝ) : (Tensor.const r k v).cols = k := rfl

theorem const_data (r k : ℕ) (v : ℝ) (b j : ℕ) : (Tensor.const r k v).data b j = v := rfl

theorem batchMean_const2 (k : ℕ) (c : ℝ) (j : ℕ) :
    batchMean (Tensor.const 2 k c) j = c := by
  simp [batchMean, const_rows, const_data, Finset.sum_range_succ]

theorem batchVar_const2 (k : ℕ) (c : ℝ) (j : ℕ) :
    batchVar (Tensor.const 2 k c) j = 0 := by
  simp [batchVar, batchMean_const2, const_rows, const_data]

theorem batchVarUnbiased_const2 (k : ℕ) (c : ℝ) (j : ℕ) :
    batchVarUnbiased (Tensor.const 2 k c) j = 0 := by
  simp [batchVarUnbiased, batchMean_const2, const_rows, const_data]

theorem bn_apply_train (bn : NNBatchNorm) (x : Tensor) (hc : x.cols = bn.numFeatures)
    (hr : 1 < x.rows) :
    bn.apply Mode.train x =
      Except.ok (⟨x.rows, x.cols, fun b j => bn.gamma j *
          ((x.data b j - batchMean x j) / Real.sqrt (batchVar x j + bn.eps)) + bn.beta j⟩,
        ⟨bn.numFeatures, bn.gamma, bn.beta,
         fun j => (1 - bn.momentum) * bn.runningMean j + bn.momentum * batchMean x j,
         fun j => (1 - bn.momentum) * bn.runningVar j + bn.momentum * batchVarUnbiased x j,
         bn.momentum, bn.eps⟩) := by
  unfold NNBatchNorm.apply
  rw [if_pos hc]
  show (if 1 < x.rows then _ else _) = _
  rw [if_pos hr]

theorem bn_apply_eval (bn : NNBatchNorm) (x : Tensor) (hc : x.cols = bn.numFeatures) :
    bn.apply Mode.eval x =
      Except.ok (⟨x.rows, x.cols, fun b j => bn.gamma j *
          ((x.data b j - bn.runningMean j) / Real.sqrt (bn.runningVar j + bn.eps)) + bn.beta j⟩,
        bn) := by
  unfold NNBatchNorm.apply
  rw [if_pos hc]

theorem bnDefault_eval (r : ℕ) :
    (NNBatchNorm.default 1).apply Mode.eval (Tensor.const r 1 0) =
      Except.ok (Tensor.const r 1 0, NNBatchNorm.default 1) := by
  simp [NNBatchNorm.apply, NNBatchNorm.default, Tensor.const]

theorem bnDefault_train (c : ℝ) :
    (NNBatchNorm.default 1).apply Mode.train (Tensor.const 2 1 c) =
      Except.ok (Tensor.const 2 1 0, bnAfterTrain c) := by
  rw [bn_apply_train (NNBatchNorm.default 1) (Tensor.const 2 1 c) rfl Nat.one_lt_two]
  refine congrArg Except.ok ?_
  ext b j
  · rfl
  · rfl
  · simp [NNBatchNorm.default, batchMean_const2, batchVar_const2, const_data]
  · rfl
  · rfl
  · rfl
  · simp [NNBatchNorm.default, bnAfterTrain, batchMean_const2]
    ring
  · simp [NNBatchNorm.default, bnAfterTrain, batchVarUnbiased_const2]
    norm_num
  · rfl
  · rfl

theorem relu_const0 (r k : ℕ) :
    reluT (Tensor.const r k 0) = Tensor.const r k 0 := by
  simp [reluT, Tensor.const]

theorem dropout_eval (p : ℝ) (mask : ℕ → ℕ → ℝ) (x : Tensor) :
    dropoutT p Mode.eval mask x = x := rfl

theorem dropout_train_const0 (r k : ℕ) (mask : ℕ → ℕ → ℝ) :
    dropoutT 0.1 Mode.train mask (Tensor.const r k 0) = Tensor.const r k 0 := by
  simp [dropoutT, Tensor.const]

theorem reparam_const0 (r k : ℕ) (v : ℝ) :
    reparameterization (Tensor.const r k 0) (Tensor.const r k 0) (fun _ _ => v) =
      Except.ok (Tensor.const r k v) := by
  simp [reparameterization, Tensor.const]

theorem sigmoidT_const0 (r k : ℕ) :
    sigmoidT (Tensor.const r k 0) = Tensor.const r k (1 / 2) := by
  simp [sigmoidT, sigmoid, Tensor.const]
  norm_num [Real.exp_zero]

/- Composite evaluation lemmas on the concrete models. -/

theorem zeroModel_encode_eval :
    zeroModel.encode Mode.eval x0 =
      Except.ok (Tensor.const 2 1 0, Tensor.const 2 1 0, zeroModel) := by
  simp only [zeroModel, x0, VAE_enhanced.encode, VAE_enhanced.encoderSeq,
    VAE_enhanced.construct, NNLinear.construct, lin00_apply, bnDefault_eval,
    relu_const0, ok_bind]

theorem zeroModel_decode_eval (v : ℝ) :
    zeroModel.decode Mode.eval (Tensor.const 2 1 v) dm0 =
      Except.ok (Tensor.const 2 1 (1 / 2), zeroModel) := by
  simp only [zeroModel, VAE_enhanced.decode, VAE_enhanced.construct, NNLinear.construct,
    dropout_eval, lin00_apply, bnDefault_eval, relu_const0, sigmoidT_const0, ok_bind]

theorem zeroModel_forward_eval :
    zeroModel.forward Mode.eval x0 eps0 dm0 =
      Except.ok (Tensor.const 2 1 (1 / 2), Tensor.const 2 1 0, Tensor.const 2 1 0, zeroModel) := by
  have h1 := zeroModel_encode_eval
  have h2 := reparam_const0 2 1 (0 : ℝ)
  have h3 := zeroModel_decode_eval 0
  rw [VAE_enhanced.forward, h1, ok_bind]
  rw [show eps0 = fun _ _ => (0 : ℝ) from rfl, h2, ok_bind, h3, ok_bind]

theorem zeroModel_encode_train :
    zeroModel.encode Mode.train x0 =
      Except.ok (Tensor.const 2 1 0, Tensor.const 2 1 0, zeroModelEnc) := by
  simp only [zeroModel, zeroModelEnc, x0, VAE_enhanced.encode, VAE_enhanced.encoderSeq,
    VAE_enhanced.construct, NNLinear.construct, lin00_apply, bnDefault_train,
    relu_const0, ok_bind]

theorem zeroModelEnc_decode_train (v : ℝ) :
    zeroModelEnc.decode Mode.train (Tensor.const 2 1 v) dm0 =
      Except.ok (Tensor.const 2 1 (1 / 2), zeroModelAfter) := by
  simp only [zeroModelEnc, zeroModelAfter, zeroModel, VAE_enhanced.decode,
    VAE_enhanced.construct, NNLinear.construct, lin00_apply, bnDefault_train,
    relu_const0, dropout_train_const0, sigmoidT_const0, ok_bind]

theorem zeroModel_forward_train (v : ℝ) :
    zeroModel.forward Mode.train x0 (fun _ _ => v) dm0 =
      Except.ok (Tensor.const 2 1 (1 / 2), Tensor.const 2 1 0, Tensor.const 2 1 0,
        zeroModelAfter) := by
  have h1 := zeroModel_encode_train
  have h2 := reparam_const0 2 1 v
  have h3 := zeroModelEnc_decode_train v
  rw [VAE_enhanced.forward, h1, ok_bind, h2, ok_bind, h3, ok_bind]

theorem oneModel_encode_train :
    oneModel.encode Mode.train (Tensor.const 2 1 1) =
      Except.ok (Tensor.const 2 1 0, Tensor.const 2 1 0, oneModelEnc) := by
  simp only [oneModel, oneModelEnc, VAE_enhanced.encode, VAE_enhanced.encoderSeq,
    VAE_enhanced.construct, NNLinear.construct, lin11_apply, bnDefault_train,
    relu_const0, ok_bind]

/- Shape propagation through the layers. -/

theorem reluT_rows (x : Tensor) : (reluT x).rows = x.rows := rfl

theorem reluT_cols (x : Tensor) : (reluT x).cols = x.cols := rfl

theorem dropoutT_rows (p : ℝ) (mode : Mode) (mask : ℕ → ℕ → ℝ) (x : Tensor) :
    (dropoutT p mode mask x).rows = x.rows := rfl

theorem dropoutT_cols (p : ℝ) (mode : Mode) (mask : ℕ → ℕ → ℝ) (x : Tensor) :
    (dropoutT p mode mask x).cols = x.cols := rfl

theorem sigmoidT_rows (x : Tensor) : (sigmoidT x).rows = x.rows := rfl

theorem sigmoidT_cols (x : Tensor) : (sigmoidT x).cols = x.cols := rfl

theorem reparamSpec_rows (mean logvar : Tensor) (eps : ℕ → ℕ → ℝ) :
    (reparamSpec mean logvar eps).rows = mean.rows := rfl

theorem reparamSpec_cols (mean logvar : Tensor) (eps : ℕ → ℕ → ℝ) :
    (reparamSpec mean logvar eps).cols = mean.cols := rfl

theorem lin_shape (l : NNLinear) (x : Tensor) (hc : x.cols = l.inFeatures) :
    ∃ d, l.apply x = Except.ok (⟨x.rows, l.outFeatures, d⟩ : Tensor) := by
  refine ⟨fun b j => (∑ i ∈ Finset.range l.inFeatures, l.weight j i * x.data b i) + l.bias j, ?_⟩
  unfold NNLinear.apply
  rw [if_pos hc]

theorem bn_shape (bn : NNBatchNorm) (mode : Mode) (x : Tensor)
    (hc : x.cols = bn.numFeatures) (hr : 1 < x.rows) :
    ∃ e bn', bn.apply mode x = Except.ok ((⟨x.rows, x.cols, e⟩ : Tensor), bn') := by
  cases mode
  · exact ⟨_, _, bn_apply_train bn x hc hr⟩
  · exact ⟨_, _, bn_apply_eval bn x hc⟩

theorem reparam_shape (mean logvar : Tensor) (eps : ℕ → ℕ → ℝ)
    (hr : mean.rows = logvar.rows) (hc : mean.cols = logvar.cols) :
    reparameterization mean logvar eps = Except.ok (reparamSpec mean logvar eps) := by
  unfold reparameterization reparamSpec
  rw [if_pos ⟨hr, hc⟩]

/-- C4: for every valid construction (positive input_dim, hidden_dim,
latent_dim) and every batch of size B ≥ 2, forward succeeds in both modes and
returns x_hat of shape (B, input_dim), mean of shape (B, latent_dim) and
logvar of shape (B, latent_dim). -/
theorem C4_forward_shapes (input_dim hidden_dim latent_dim B : ℕ) (w : ℕ → ℕ → ℕ → ℝ)
    (mode : Mode) (x : Tensor) (eps : ℕ → ℕ → ℝ) (dmask : ℕ → ℕ → ℕ → ℝ)
    (hi : 0 < input_dim) (hh : 0 < hidden_dim) (hl : 0 < latent_dim)
    (hB : 2 ≤ B) (hrB : x.rows = B) (hc : x.cols = input_dim) :
    forwardShapes ((VAE_enhanced.construct input_dim hidden_dim latent_dim w).forward
        mode x eps dmask) =
      some ((B, input_dim), (B, latent_dim), (B, latent_dim)) := by
  have hrow : 1 < x.rows := by omega
  set m := VAE_enhanced.construct input_dim hidden_dim latent_dim w with hm
  obtain ⟨d1, h1⟩ := lin_shape m.encLin1 x hc
  obtain ⟨e1, bn1, h2⟩ :=
    bn_shape m.encBn1 mode ⟨x.rows, m.encLin1.outFeatures, d1⟩ rfl hrow
  obtain ⟨d2, h3⟩ :=
    lin_shape m.encLin2 (reluT ⟨x.rows, m.encLin1.outFeatures, e1⟩) rfl
  obtain ⟨e2, bn2, h4⟩ :=
    bn_shape m.encBn2 mode ⟨x.rows, m.encLin2.outFeatures, d2⟩ rfl hrow
  obtain ⟨d3, h5⟩ :=
    lin_shape m.encLin3 (reluT ⟨x.rows, m.encLin2.outFeatures, e2⟩) rfl
  obtain ⟨e3, bn3, h6⟩ :=
    bn_shape m.encBn3 mode ⟨x.rows, m.encLin3.outFeatures, d3⟩ rfl hrow
  obtain ⟨d4, h7⟩ :=
    lin_shape m.encLin4 (reluT ⟨x.rows, m.encLin3.outFeatures, e3⟩) rfl
  obtain ⟨e4, bn4, h8⟩ :=
    bn_shape m.encBn4 mode ⟨x.rows, m.encLin4.outFeatures, d4⟩ rfl hrow
  obtain ⟨dm, h9⟩ :=
    lin_shape m.mean_layer (reluT ⟨x.rows, m.encLin4.outFeatures, e4⟩) rfl
  obtain ⟨dl, h10⟩ :=
    lin_shape m.logvar_layer (reluT ⟨x.rows, m.encLin4.outFeatures, e4⟩) rfl
  unfold VAE_enhanced.forward VAE_enhanced.encode VAE_enhanced.encoderSeq
  rw [h1, ok_bind, h2, ok_bind]
  dsimp only [reluT_rows, reluT_cols, dropoutT_rows, dropoutT_cols,
    reparamSpec_rows, reparamSpec_cols]
  rw [h3, ok_bind]
  dsimp only [reluT_rows, reluT_cols, dropoutT_rows, dropoutT_cols,
    reparamSpec_rows, reparamSpec_cols]
  rw [h4, ok_bind]
  dsimp only [reluT_rows, reluT_cols, dropoutT_rows, dropoutT_cols,
    reparamSpec_rows, reparamSpec_cols]
  rw [h5, ok_bind]
  dsimp only [reluT_rows, reluT_cols, dropoutT_rows, dropoutT_cols,
    reparamSpec_rows, reparamSpec_cols]
  rw [h6, ok_bind]
  dsimp only [reluT_rows, reluT_cols, dropoutT_rows, dropoutT_cols,
    reparamSpec_rows, reparamSpec_cols]
  rw [h7, ok_bind]
  dsimp only [reluT_rows, reluT_cols, dropoutT_rows, dropoutT_cols,
    reparamSpec_rows, reparamSpec_cols]
  rw [h8, ok_bind]
  dsimp only [reluT_rows, reluT_cols, dropoutT_rows, dropoutT_cols,
    reparamSpec_rows, reparamSpec_cols]
  rw [ok_bind]
  dsimp only [reluT_rows, reluT_cols, dropoutT_rows, dropoutT_cols,
    reparamSpec_rows, reparamSpec_cols]
  rw [h9, ok_bind, h10, ok_bind, ok_bind]
  dsimp only [reluT_rows, reluT_cols, dropoutT_rows, dropoutT_cols,
    reparamSpec_rows, reparamSpec_cols]
  rw [reparam_shape ⟨x.rows, m.mean_layer.outFeatures, dm⟩
      ⟨x.rows, m.logvar_layer.outFeatures, dl⟩ eps rfl rfl, ok_bind]
  unfold VAE_enhanced.decode
  dsimp only [reluT_rows, reluT_cols, dropoutT_rows, dropoutT_cols,
    reparamSpec_rows, reparamSpec_cols]
  obtain ⟨g1, h11⟩ := lin_shape m.decLin1
    (reparamSpec ⟨x.rows, m.mean_layer.outFeatures, dm⟩
      ⟨x.rows, m.logvar_layer.outFeatures, dl⟩ eps) rfl
  rw [h11, ok_bind]
  dsimp only [reluT_rows, reluT_cols, dropoutT_rows, dropoutT_cols,
    reparamSpec_rows, reparamSpec_cols]
  obtain ⟨f1, cn1, h12⟩ :=
    bn_shape m.decBn1 mode ⟨x.rows, m.decLin1.outFeatures, g1⟩ rfl hrow
  rw [h12, ok_bind]
  dsimp only [reluT_rows, reluT_cols, dropoutT_rows, dropoutT_cols,
    reparamSpec_rows, reparamSpec_cols]
  obtain ⟨g2, h13⟩ := lin_shape m.decLin2 (dropoutT 0.1 mode (dmask 0)
    (reluT ⟨x.rows, m.decLin1.outFeatures, f1⟩)) rfl
  rw [h13, ok_bind]
  dsimp only [reluT_rows, reluT_cols, dropoutT_rows, dropoutT_cols,
    reparamSpec_rows, reparamSpec_cols]
  obtain ⟨f2, cn2, h14⟩ :=
    bn_shape m.decBn2 mode ⟨x.rows, m.decLin2.outFeatures, g2⟩ rfl hrow
  rw [h14, ok_bind]
  dsimp only [reluT_rows, reluT_cols, dropoutT_rows, dropoutT_cols,
    reparamSpec_rows, reparamSpec_cols]
  obtain ⟨g3, h15⟩ := lin_shape m.decLin3 (dropoutT 0.1 mode (dmask 1)
    (reluT ⟨x.rows, m.decLin2.outFeatures, f2⟩)) rfl
  rw [h15, ok_bind]
  dsimp only [reluT_rows, reluT_cols, dropoutT_rows, dropoutT_cols,
    reparamSpec_rows, reparamSpec_cols]
  obtain ⟨f3, cn3, h16⟩ :=
    bn_shape m.decBn3 mode ⟨x.rows, m.decLin3.outFeatures, g3⟩ rfl hrow
  rw [h16, ok_bind]
  dsimp only [reluT_rows, reluT_cols, dropoutT_rows, dropoutT_cols,
    reparamSpec_rows, reparamSpec_cols]
  obtain ⟨g4, h17⟩ := lin_shape m.decLin4 (dropoutT 0.1 mode (dmask 2)
    (reluT ⟨x.rows, m.decLin3.outFeatures, f3⟩)) rfl
  rw [h17, ok_bind]
  dsimp only [reluT_rows, reluT_cols, dropoutT_rows, dropoutT_cols,
    reparamSpec_rows, reparamSpec_cols]
  obtain ⟨f4, cn4, h18⟩ :=
    bn_shape m.decBn4 mode ⟨x.rows, m.decLin4.outFeatures, g4⟩ rfl hrow
  rw [h18, ok_bind]
  dsimp only [reluT_rows, reluT_cols, dropoutT_rows, dropoutT_cols,
    reparamSpec_rows, reparamSpec_cols]
  obtain ⟨g5, h19⟩ := lin_shape m.decLin5 (dropoutT 0.1 mode (dmask 3)
    (reluT ⟨x.rows, m.decLin4.outFeatures, f4⟩)) rfl
  rw [h19, ok_bind, ok_bind]
  simp only [forwardShapes, shapeOf, Except.toOption, Option.map,
    sigmoidT_rows, sigmoidT_cols, dropoutT_rows, reluT_rows]
  simp [hm, VAE_enhanced.construct, NNLinear.construct, hrB]

/-- C9: a training-mode forward call on a batch of size 1 fails fast with the
batch-norm error (PyTorch raises ValueError: expected more than 1 value per
channel when training) rather than silently computing with a degenerate
variance. -/
theorem C9_batch_one_errors (input_dim hidden_dim latent_dim : ℕ) (w : ℕ → ℕ → ℕ → ℝ)
    (x : Tensor) (eps : ℕ → ℕ → ℝ) (dmask : ℕ → ℕ → ℕ → ℝ)
    (hrB : x.rows = 1) (hc : x.cols = input_dim) :
    (VAE_enhanced.construct input_dim hidden_dim latent_dim w).forward
      Mode.train x eps dmask = Except.error Err.batchTooSmall := by
  set m := VAE_enhanced.construct input_dim hidden_dim latent_dim w with hm
  obtain ⟨d1, h1⟩ := lin_shape m.encLin1 x hc
  have hcc : (⟨x.rows, m.encLin1.outFeatures, d1⟩ : Tensor).cols = m.encBn1.numFeatures := rfl
  have h2 : m.encBn1.apply Mode.train ⟨x.rows, m.encLin1.outFeatures, d1⟩ =
      Except.error Err.batchTooSmall := by
    unfold NNBatchNorm.apply
    rw [if_pos hcc]
    show (if 1 < x.rows then _ else _) = _
    rw [if_neg (by omega)]
  unfold VAE_enhanced.forward VAE_enhanced.encode VAE_enhanced.encoderSeq
  rw [h1, ok_bind, h2]
  simp only [error_bind]

/- Range of the sigmoid output. -/

theorem sigmoid_nonneg (t : ℝ) : 0 ≤ sigmoid t := by
  unfold sigmoid
  positivity

theorem sigmoid_le_one (t : ℝ) : sigmoid t ≤ 1 := by
  unfold sigmoid
  rw [div_le_one (by positivity)]
  linarith [Real.exp_pos (-t)]

theorem decode_ok_sigmoid {m : VAE_enhanced} {mode : Mode} {z : Tensor}
    {dmask : ℕ → ℕ → ℕ → ℝ} {r : Tensor × VAE_enhanced}
    (h : m.decode mode z dmask = Except.ok r) : ∃ u, r.1 = sigmoidT u := by
  simp only [VAE_enhanced.decode, exceptBind_eq_ok, Except.ok.injEq] at h
  obtain ⟨h1, -, p1, -, h2, -, p2, -, h3, -, p3, -, h4, -, p4, -, h5, -, hfin⟩ := h
  exact ⟨h5, by rw [← hfin]⟩

/-- C3: every component of the reconstruction x_hat returned by a successful
forward call lies in the closed interval [0, 1], in both training and
inference mode — the decoder's final stage is a linear transform followed by
a sigmoid activation. -/
theorem C3_xhat_range (m : VAE_enhanced) (mode : Mode) (x : Tensor)
    (eps : ℕ → ℕ → ℝ) (dmask : ℕ → ℕ → ℕ → ℝ)
    (r : Tensor × Tensor × Tensor × VAE_enhanced)
    (h : m.forward mode x eps dmask = Except.ok r) :
    ∀ b j, 0 ≤ r.1.data b j ∧ r.1.data b j ≤ 1 := by
  simp only [VAE_enhanced.forward, exceptBind_eq_ok, Except.ok.injEq] at h
  obtain ⟨pe, -, z, -, pd, hdec, hfin⟩ := h
  obtain ⟨u, hu⟩ := decode_ok_sigmoid hdec
  intro b j
  rw [← hfin]
  dsimp only
  rw [hu]
  exact ⟨sigmoid_nonneg _, sigmoid_le_one _⟩

theorem zeroModel_forward_eval' :
    zeroModel.forward Mode.eval x0 eps0 dm0 = Except.ok zeroFwdResult :=
  zeroModel_forward_eval

/-- Witness for C3: a concrete successful inference-mode forward call, with
the bound checked on the (0,0) entry of the returned reconstruction. -/
theorem C3_witness :
    (zeroModel.forward Mode.eval x0 eps0 dm0 = Except.ok zeroFwdResult) ∧
    (0 ≤ zeroFwdResult.1.data 0 0 ∧ zeroFwdResult.1.data 0 0 ≤ 1) :=
  ⟨zeroModel_forward_eval',
   (C3_xhat_range zeroModel Mode.eval x0 eps0 dm0 zeroFwdResult zeroModel_forward_eval') 0 0⟩

/-- Witness for C4 at input_dim = hidden_dim = latent_dim = 1, B = 2. -/
theorem C4_witness :
    (0 < 1 ∧ 0 < 1 ∧ 0 < 1 ∧ 2 ≤ 2 ∧ x0.rows = 2 ∧ x0.cols = 1) ∧
    forwardShapes (zeroModel.forward Mode.eval x0 eps0 dm0) =
      some ((2, 1), (2, 1), (2, 1)) := by
  refine ⟨⟨Nat.one_pos, Nat.one_pos, Nat.one_pos, le_refl 2, rfl, rfl⟩, ?_⟩
  exact C4_forward_shapes 1 1 1 2 (fun _ _ _ => 0) Mode.eval x0 eps0 dm0
    Nat.one_pos Nat.one_pos Nat.one_pos (le_refl 2) rfl rfl

/-- Witness for C9: a batch of one row in training mode errors. -/
theorem C9_witness :
    ((Tensor.const 1 1 0 : Tensor).rows = 1 ∧ (Tensor.const 1 1 0 : Tensor).cols = 1) ∧
    zeroModel.forward Mode.train (Tensor.const 1 1 0) eps0 dm0 =
      Except.error Err.batchTooSmall :=
  ⟨⟨rfl, rfl⟩,
   C9_batch_one_errors 1 1 1 (fun _ _ _ => 0) (Tensor.const 1 1 0) eps0 dm0 rfl rfl⟩

/- State preservation of the module methods. -/

theorem bn_apply_ok_params {bn : NNBatchNorm} {mode : Mode} {x : Tensor}
    {p : Tensor × NNBatchNorm} (h : bn.apply mode x = Except.ok p) :
    p.2.gamma = bn.gamma ∧ p.2.beta = bn.beta ∧ (mode = Mode.eval → p.2 = bn) := by
  unfold NNBatchNorm.apply at h
  split at h
  · split at h
    · split at h
      · rw [Except.ok.injEq] at h
        subst h
        refine ⟨rfl, rfl, ?_⟩
        intro he
        exact absurd he (by decide)
      · simp at h
    · rw [Except.ok.injEq] at h
      subst h
      exact ⟨rfl, rfl, fun _ => rfl⟩
  · simp at h

theorem encoderSeq_ok_state {m : VAE_enhanced} {mode : Mode} {x : Tensor}
    {r : Tensor × VAE_enhanced} (h : m.encoderSeq mode x = Except.ok r) :
    paramsPreserved m r.2 ∧ (mode = Mode.eval → r.2 = m) := by
  simp only [VAE_enhanced.encoderSeq, exceptBind_eq_ok, Except.ok.injEq] at h
  obtain ⟨h1, -, p1, hp1, h2, -, p2, hp2, h3, -, p3, hp3, h4, -, p4, hp4, hfin⟩ := h
  obtain ⟨g1, b1, e1⟩ := bn_apply_ok_params hp1
  obtain ⟨g2, b2, e2⟩ := bn_apply_ok_params hp2
  obtain ⟨g3, b3, e3⟩ := bn_apply_ok_params hp3
  obtain ⟨g4, b4, e4⟩ := bn_apply_ok_params hp4
  subst hfin
  constructor
  · exact ⟨rfl, rfl, rfl, rfl, rfl, rfl, rfl, rfl, rfl, rfl, rfl,
      ⟨g1, b1⟩, ⟨g2, b2⟩, ⟨g3, b3⟩, ⟨g4, b4⟩,
      ⟨rfl, rfl⟩, ⟨rfl, rfl⟩, ⟨rfl, rfl⟩, ⟨rfl, rfl⟩⟩
  · intro hm
    show VAE_enhanced.mk _ _ _ _ _ _ _ _ _ _ _ _ _ _ _ _ _ _ _ _ _ _ = m
    rw [e1 hm, e2 hm, e3 hm, e4 hm]

theorem encode_ok_state {m : VAE_enhanced} {mode : Mode} {x : Tensor}
    {r : Tensor × Tensor × VAE_enhanced} (h : m.encode mode x = Except.ok r) :
    paramsPreserved m r.2.2 ∧ (mode = Mode.eval → r.2.2 = m) := by
  simp only [VAE_enhanced.encode, exceptBind_eq_ok, Except.ok.injEq] at h
  obtain ⟨ph, hph, mean, -, logvar, -, hfin⟩ := h
  obtain ⟨hp, he⟩ := encoderSeq_ok_state hph
  subst hfin
  exact ⟨hp, he⟩

theorem decode_ok_state {m : VAE_enhanced} {mode : Mode} {z : Tensor}
    {dmask : ℕ → ℕ → ℕ → ℝ} {r : Tensor × VAE_enhanced}
    (h : m.decode mode z dmask = Except.ok r) :
    paramsPreserved m r.2 ∧ (mode = Mode.eval → r.2 = m) := by
  simp only [VAE_enhanced.decode, exceptBind_eq_ok, Except.ok.injEq] at h
  obtain ⟨h1, -, p1, hp1, h2, -, p2, hp2, h3, -, p3, hp3, h4, -, p4, hp4, h5, -, hfin⟩ := h
  obtain ⟨g1, b1, e1⟩ := bn_apply_ok_params hp1
  obtain ⟨g2, b2, e2⟩ := bn_apply_ok_params hp2
  obtain ⟨g3, b3, e3⟩ := bn_apply_ok_params hp3
  obtain ⟨g4, b4, e4⟩ := bn_apply_ok_params hp4
  subst hfin
  constructor
  · exact ⟨rfl, rfl, rfl, rfl, rfl, rfl, rfl, rfl, rfl, rfl, rfl,
      ⟨rfl, rfl⟩, ⟨rfl, rfl⟩, ⟨rfl, rfl⟩, ⟨rfl, rfl⟩,
      ⟨g1, b1⟩, ⟨g2, b2⟩, ⟨g3, b3⟩, ⟨g4, b4⟩⟩
  · intro hm
    show VAE_enhanced.mk _ _ _ _ _ _ _ _ _ _ _ _ _ _ _ _ _ _ _ _ _ _ = m
    rw [e1 hm, e2 hm, e3 hm, e4 hm]

theorem paramsPreserved_trans {a b c : VAE_enhanced}
    (h1 : paramsPreserved a b) (h2 : paramsPreserved b c) : paramsPreserved a c := by
  obtain ⟨q1, q2, q3, q4, q5, q6, q7, q8, q9, q10, q11,
    ⟨r1, r2⟩, ⟨r3, r4⟩, ⟨r5, r6⟩, ⟨r7, r8⟩, ⟨r9, r10⟩, ⟨r11, r12⟩, ⟨r13, r14⟩, ⟨r15, r16⟩⟩ := h1
  obtain ⟨s1, s2, s3, s4, s5, s6, s7, s8, s9, s10, s11,
    ⟨t1, t2⟩, ⟨t3, t4⟩, ⟨t5, t6⟩, ⟨t7, t8⟩, ⟨t9, t10⟩, ⟨t11, t12⟩, ⟨t13, t14⟩, ⟨t15, t16⟩⟩ := h2
  exact ⟨s1.trans q1, s2.trans q2, s3.trans q3, s4.trans q4, s5.trans q5, s6.trans q6,
    s7.trans q7, s8.trans q8, s9.trans q9, s10.trans q10, s11.trans q11,
    ⟨t1.trans r1, t2.trans r2⟩, ⟨t3.trans r3, t4.trans r4⟩, ⟨t5.trans r5, t6.trans r6⟩,
    ⟨t7.trans r7, t8.trans r8⟩, ⟨t9.trans r9, t10.trans r10⟩, ⟨t11.trans r11, t12.trans r12⟩,
    ⟨t13.trans r13, t14.trans r14⟩, ⟨t15.trans r15, t16.trans r16⟩⟩

/-- C7 (amended): a successful forward call never changes any weight matrix,
bias vector, or batch-norm scale/shift parameter of the module, and an
inference-mode call returns the module state entirely unchanged; in training
mode the batch-norm running statistics are updated by the module itself. -/
theorem C7_forward_preserves_params (m : VAE_enhanced) (mode : Mode) (x : Tensor)
    (eps : ℕ → ℕ → ℝ) (dmask : ℕ → ℕ → ℕ → ℝ)
    (r : Tensor × Tensor × Tensor × VAE_enhanced)
    (h : m.forward mode x eps dmask = Except.ok r) :
    paramsPreserved m r.2.2.2 ∧ (mode = Mode.eval → r.2.2.2 = m) := by
  simp only [VAE_enhanced.forward, exceptBind_eq_ok, Except.ok.injEq] at h
  obtain ⟨pe, hpe, z, -, pd, hpd, hfin⟩ := h
  obtain ⟨hp1, he1⟩ := encode_ok_state hpe
  obtain ⟨hp2, he2⟩ := decode_ok_state hpd
  subst hfin
  refine ⟨paramsPreserved_trans hp1 hp2, ?_⟩
  intro hm
  show pd.2 = m
  rw [he2 hm, he1 hm]

/-- Witness for C7 at a concrete successful inference-mode forward call. -/
theorem C7_witness :
    (zeroModel.forward Mode.eval x0 eps0 dm0 = Except.ok zeroFwdResult) ∧
    (paramsPreserved zeroModel zeroFwdResult.2.2.2 ∧
      (Mode.eval = Mode.eval → zeroFwdResult.2.2.2 = zeroModel)) :=
  ⟨zeroModel_forward_eval',
   C7_forward_preserves_params zeroModel Mode.eval x0 eps0 dm0 zeroFwdResult
     zeroModel_forward_eval'⟩

/-- C7 counterexample: encode, one of the module's own methods, changes the
first encoder batch-norm running mean from 0 to 1/10 in a single
training-mode call on a concrete model and batch — the running statistics
are not unchanged by the module's own methods, i.e. the optimizer is not the
only mutator. -/
theorem C7_counterexample :
    oneModel.encBn1.runningMean 0 = 0 ∧
    ((oneModel.encode Mode.train (Tensor.const 2 1 1)).map
      fun r => r.2.2.encBn1.runningMean 0) = Except.ok (1 / 10) := by
  refine ⟨rfl, ?_⟩
  rw [oneModel_encode_train]
  show Except.ok (oneModelEnc.encBn1.runningMean 0) = _
  norm_num [oneModelEnc, bnAfterTrain]

/-- C1: forward(x) computes exactly the composition encode, then
reparameterization on (mean, logvar), then decode on z, and returns the
triple (x_hat, mean, logvar) in that order (followed by the module state that
the state-passing embedding threads through). -/
theorem C1_forward_composition (m : VAE_enhanced) (mode : Mode) (x : Tensor)
    (eps : ℕ → ℕ → ℝ) (dmask : ℕ → ℕ → ℕ → ℝ) :
    m.forward mode x eps dmask =
      (m.encode mode x).bind fun pe =>
        (reparameterization pe.1 pe.2.1 eps).bind fun z =>
          (pe.2.2.decode mode z dmask).bind fun pd =>
            Except.ok (pd.1, pe.1, pe.2.1, pd.2) := rfl

/-- C2: for same-shaped mean and logvar and any fixed noise draw eps,
reparameterization returns exactly z = mean + exp(0.5 * logvar) * eps
elementwise, and repeated calls with the same injected eps return the
identical z. -/
theorem C2_reparameterization (mean logvar : Tensor) (eps : ℕ → ℕ → ℝ)
    (hr : mean.rows = logvar.rows) (hc : mean.cols = logvar.cols) :
    reparameterization mean logvar eps = Except.ok (reparamSpec mean logvar eps) ∧
    (∀ z1 z2, reparameterization mean logvar eps = Except.ok z1 →
      reparameterization mean logvar eps = Except.ok z2 → z1 = z2) := by
  refine ⟨reparam_shape mean logvar eps hr hc, ?_⟩
  intro z1 z2 h1 h2
  rw [h1] at h2
  exact Except.ok.inj h2

/-- Witness for C2 on concrete 1-by-1 tensors. -/
theorem C2_witness :
    ((Tensor.const 1 1 0 : Tensor).rows = (Tensor.const 1 1 0 : Tensor).rows ∧
     (Tensor.const 1 1 0 : Tensor).cols = (Tensor.const 1 1 0 : Tensor).cols) ∧
    (reparameterization (Tensor.const 1 1 0) (Tensor.const 1 1 0) eps0 =
        Except.ok (reparamSpec (Tensor.const 1 1 0) (Tensor.const 1 1 0) eps0) ∧
     (∀ z1 z2, reparameterization (Tensor.const 1 1 0) (Tensor.const 1 1 0) eps0 =
          Except.ok z1 →
        reparameterization (Tensor.const 1 1 0) (Tensor.const 1 1 0) eps0 =
          Except.ok z2 → z1 = z2)) :=
  ⟨⟨rfl, rfl⟩, C2_reparameterization (Tensor.const 1 1 0) (Tensor.const 1 1 0) eps0 rfl rfl⟩

/-- C5 (amended): two forward calls in the same mode with identical input and
module state return identical mean and logvar, regardless of the injected
noise and dropout draws; the reconstruction x_hat need not differ when the
noise draws differ (see the counterexample). -/
theorem C5_mean_logvar_deterministic (m : VAE_enhanced) (mode : Mode) (x : Tensor)
    (na nb : ℕ → ℕ → ℝ) (da db : ℕ → ℕ → ℕ → ℝ)
    (r1 r2 : Tensor × Tensor × Tensor × VAE_enhanced)
    (h1 : m.forward mode x na da = Except.ok r1)
    (h2 : m.forward mode x nb db = Except.ok r2) :
    r1.2.1 = r2.2.1 ∧ r1.2.2.1 = r2.2.2.1 := by
  simp only [VAE_enhanced.forward, exceptBind_eq_ok, Except.ok.injEq] at h1 h2
  obtain ⟨pe1, hpe1, z1, -, pd1, -, hfin1⟩ := h1
  obtain ⟨pe2, hpe2, z2, -, pd2, -, hfin2⟩ := h2
  have hpe : pe1 = pe2 := Except.ok.inj (hpe1.symm.trans hpe2)
  subst hpe
  subst hfin1
  subst hfin2
  exact ⟨rfl, rfl⟩

/-- Witness for C5 at two (here equal) noise draws on a concrete call. -/
theorem C5_witness :
    (zeroModel.forward Mode.eval x0 eps0 dm0 = Except.ok zeroFwdResult) ∧
    (zeroModel.forward Mode.eval x0 eps0 dm0 = Except.ok zeroFwdResult) ∧
    (zeroFwdResult.2.1 = zeroFwdResult.2.1 ∧ zeroFwdResult.2.2.1 = zeroFwdResult.2.2.1) :=
  ⟨zeroModel_forward_eval', zeroModel_forward_eval',
   C5_mean_logvar_deterministic zeroModel Mode.eval x0 eps0 eps0 dm0 dm0
     zeroFwdResult zeroFwdResult zeroModel_forward_eval' zeroModel_forward_eval'⟩

/-- C5 counterexample: in training mode, with identical input and module
state but different noise draws (all-zero versus all-one), the two forward
calls return the same x_hat on this concrete model — the all-zero decoder
weights collapse every latent sample — refuting the claim that x_hat differs
whenever the two noise draws differ. -/
theorem C5_counterexample :
    eps0 ≠ eps1 ∧
    (zeroModel.forward Mode.train x0 eps0 dm0).map (fun r => r.1) =
      (zeroModel.forward Mode.train x0 eps1 dm0).map (fun r => r.1) := by
  constructor
  · intro hcontra
    have h00 := congrFun (congrFun hcontra 0) 0
    norm_num [eps0, eps1] at h00
  · rw [show eps0 = fun _ _ => (0 : ℝ) from rfl, show eps1 = fun _ _ => (1 : ℝ) from rfl,
      zeroModel_forward_train 0, zeroModel_forward_train 1]

/-- C6: at construction time — the initialization routine runs exactly once,
before any forward evaluation — every linear bias vector is all zeros, every
linear weight entry lies within its layer's Xavier/Glorot uniform bound
sqrt(6/(fan_in+fan_out)), and every batch-norm scale/shift pair is left at
the default (1, 0), untouched by the routine. -/
theorem C6_initialization (input_dim hidden_dim latent_dim : ℕ) (w : ℕ → ℕ → ℕ → ℝ)
    (hw : xavierDraws input_dim hidden_dim latent_dim w) :
    xavierInitOK input_dim hidden_dim latent_dim
      (VAE_enhanced.construct input_dim hidden_dim latent_dim w) := by
  refine ⟨fun j => ⟨rfl, rfl, rfl, rfl, rfl, rfl, rfl, rfl, rfl, rfl, rfl⟩, ?_,
    fun j => ⟨rfl, rfl, rfl, rfl, rfl, rfl, rfl, rfl, rfl, rfl, rfl, rfl, rfl, rfl, rfl, rfl⟩⟩
  intro j i
  exact ⟨hw 0 j i, hw 1 j i, hw 2 j i, hw 3 j i, hw 4 j i, hw 5 j i, hw 6 j i,
    hw 7 j i, hw 8 j i, hw 9 j i, hw 10 j i⟩

/-- Witness for C6 at dims (1, 1, 1) with the all-zero draw. -/
theorem C6_witness :
    xavierDraws 1 1 1 (fun _ _ _ => 0) ∧
    xavierInitOK 1 1 1 (VAE_enhanced.construct 1 1 1 (fun _ _ _ => 0)) := by
  have hd : xavierDraws 1 1 1 (fun _ _ _ => 0) := by
    intro k j i
    simpa [xavierLimit] using
      Real.sqrt_nonneg (6 / ((layerFanIn 1 1 1 k : ℝ) + (layerFanOut 1 1 1 k : ℝ)))
  exact ⟨hd, C6_initialization 1 1 1 (fun _ _ _ => 0) hd⟩
